import Mathlib

/-!
Verification of the Either / IOEither combinator core of this fp-ts-style
combinator library, against its natural-language specification.

The development shallowly embeds the JavaScript sources:

* `src/es6/Either.js` — the `Either` sum type and its operations are translated
  directly into Lean definitions on an inductive `Either` type.
* `src/es6/IOEither.js` — `IO<A>` in this library is a zero-argument deferred
  side-effecting thunk (`() => A`).  Side effects are embedded by explicit
  world-state passing: an `Io σ α` takes the current world `σ` and yields the
  successor world together with the produced value.  `IOEither σ ε α` is
  `Io σ (Either ε α)`, exactly mirroring `IOEither<E, A> = IO<Either<E, A>>`.
* JavaScript object identity (the `===` shortcut in `getEq`, and the
  reference-stability of short-circuiting operations that return their input
  object unchanged) is embedded by pairing each runtime Either object with a
  reference id (`JSEither`); an operation that constructs a fresh object takes
  a fresh-reference parameter, while an operation that returns its argument
  keeps the argument's reference id.
* A JavaScript computation that may throw is embedded as producing
  `Except θ α`: `Except.ok v` is a normal return of `v`, `Except.error t` is a
  throw of `t`.
* The dynamically typed domain of `fromNullable` is embedded as an inductive
  `JsValue` covering the primitive shapes the spec discusses (`null`,
  `undefined`, numbers, NaN, strings, booleans, object references).
-/

set_option autoImplicit false

namespace FpTs

/-- The `Either` sum type of `src/es6/Either.js`: `left(e) = { _tag: 'Left', left: e }`,
`right(a) = { _tag: 'Right', right: a }`. -/
inductive Either (ε α : Type) : Type where
  | left (e : ε)
  | right (a : α)
deriving Repr, DecidableEq

/-- A caller-supplied associative combine capability (fp-ts `Semigroup`). -/
structure Semigroup (α : Type) : Type where
  concat : α → α → α

/-- A combine capability with a neutral element (fp-ts `Monoid`). -/
structure Monoid (α : Type) : Type where
  concat : α → α → α
  empty : α

/-- `map` from `src/es6/Either.js` (line 389):
`isLeft(fa) ? fa : right(f(fa.right))`. -/
def Either.map {ε α β : Type} (f : α → β) (fa : Either ε α) : Either ε β :=
  match fa with
  | Either.left e => Either.left e
  | Either.right a => Either.right (f a)

/-- `chain` from `src/es6/Either.js` (line 343):
`isLeft(ma) ? ma : f(ma.right)`. -/
def Either.chain {ε α β : Type} (f : α → Either ε β) (ma : Either ε α) : Either ε β :=
  match ma with
  | Either.left e => Either.left e
  | Either.right a => f a

/-- `ap` from `src/es6/Either.js` (line 325):
`isLeft(fab) ? fab : isLeft(fa) ? fa : right(fab.right(fa.right))`. -/
def Either.ap {ε α β : Type} (fa : Either ε α) (fab : Either ε (α → β)) : Either ε β :=
  match fab with
  | Either.left e => Either.left e
  | Either.right fab' =>
      match fa with
      | Either.left e => Either.left e
      | Either.right a => Either.right (fab' a)

/-- `of` from `src/es6/Either.js` (line 512): `var of = right`. -/
def Either.of {ε α : Type} (a : α) : Either ε α :=
  Either.right a

/-- Claim C3: `chain` with `of = right` satisfies the monad laws — associativity
`chain(g)(chain(f)(m)) = chain(a => chain(g)(f(a)))(m)`, left identity
`chain(f)(of(a)) = f(a)`, and right identity `chain(of)(m) = m`. -/
theorem chain_monad_laws {ε α β γ : Type} (m : Either ε α)
    (f : α → Either ε β) (g : β → Either ε γ) (a : α) :
    Either.chain g (Either.chain f m) = Either.chain (fun x => Either.chain g (f x)) m ∧
    Either.chain f (Either.of a) = f a ∧
    Either.chain Either.of m = m := by
  refine ⟨?_, rfl, ?_⟩ <;> cases m <;> rfl

/-- Claim C4: the default `ap` short-circuits on the first `Left`, function side
first: a `Left` on the function side wins outright, otherwise a `Left` argument
wins, otherwise the wrapped function is applied; in particular
`ap(right(1))(left("e")) = left("e")` and `ap(left("x"))(left("e")) = left("e")`. -/
theorem ap_short_circuit {ε α β : Type} (e el : ε) (fa : Either ε α) (f : α → β) (a : α) :
    Either.ap fa (Either.left e) = (Either.left e : Either ε β) ∧
    Either.ap (Either.left el) (Either.right f) = (Either.left el : Either ε β) ∧
    Either.ap (Either.right a) (Either.right f) = (Either.right (f a) : Either ε β) ∧
    Either.ap (Either.right 1 : Either String Nat)
      (Either.left "e" : Either String (Nat → Nat)) = Either.left "e" ∧
    Either.ap (Either.left "x" : Either String Nat)
      (Either.left "e" : Either String (Nat → Nat)) = Either.left "e" :=
  ⟨rfl, rfl, rfl, rfl, rfl⟩

/-- The `ap` field of `getValidation(S)` from `src/es6/Either.js` (lines 262-270):
`isLeft(mab) ? (isLeft(ma) ? left(S.concat(mab.left, ma.left)) : mab)
             : (isLeft(ma) ? ma : right(mab.right(ma.right)))`. -/
def getValidation_ap {ε α β : Type} (S : Semigroup ε) (ma : Either ε α)
    (mab : Either ε (α → β)) : Either ε β :=
  match mab with
  | Either.left el =>
      match ma with
      | Either.left ea => Either.left (S.concat el ea)
      | Either.right _ => Either.left el
  | Either.right fab =>
      match ma with
      | Either.left ea => Either.left ea
      | Either.right a => Either.right (fab a)

/-- The `alt` field of `getValidation(S)` from `src/es6/Either.js` (lines 272-278):
if `fa` is `Right` return `fa`; otherwise evaluate `fy = that()` and return
`isLeft(fy) ? left(S.concat(fa.left, fy.left)) : fy`. -/
def getValidation_alt {ε α : Type} (S : Semigroup ε) (that : Unit → Either ε α)
    (fa : Either ε α) : Either ε α :=
  match fa with
  | Either.right a => Either.right a
  | Either.left fl =>
      match that () with
      | Either.left fyl => Either.left (S.concat fl fyl)
      | Either.right y => Either.right y

/-- The `concat` field of `getValidationSemigroup(SE, SA)` from `src/es6/Either.js`
(lines 284-296): `isLeft(fx) ? (isLeft(fy) ? left(SE.concat(fx.left, fy.left)) : fx)
                             : (isLeft(fy) ? fy : right(SA.concat(fx.right, fy.right)))`. -/
def getValidationSemigroup_concat {ε α : Type} (SE : Semigroup ε) (SA : Semigroup α)
    (fx fy : Either ε α) : Either ε α :=
  match fx with
  | Either.left xl =>
      match fy with
      | Either.left yl => Either.left (SE.concat xl yl)
      | Either.right _ => Either.left xl
  | Either.right xr =>
      match fy with
      | Either.left yl => Either.left yl
      | Either.right yr => Either.right (SA.concat xr yr)

/-- Claim C2: `getValidation(S).ap` on two `Left`s concatenates the payloads with
the function side's payload first and the argument side's second; with string
concatenation, `ap(left("b"))(left("a")) = left("ab")`. -/
theorem getValidation_ap_accumulates {ε α β : Type} (S : Semigroup ε) (el ea : ε) :
    getValidation_ap S (Either.left ea : Either ε α)
      (Either.left el : Either ε (α → β)) = Either.left (S.concat el ea) ∧
    getValidation_ap (Semigroup.mk String.append)
      (Either.left "b" : Either String Nat)
      (Either.left "a" : Either String (Nat → Nat)) = Either.left "ab" :=
  ⟨rfl, rfl⟩

/-- Counterexample to claim C5: the claim says that for `getValidation(S).alt`
combining a `Left` with a `Right` keeps the `Left`; but the code's validation
`alt` is a fallback and returns the `Right`: with `fa = left "e"` and the
alternative yielding `right 1`, `alt` returns `right 1`, not `left "e"`. -/
theorem validation_alt_keeps_right_counterexample :
    getValidation_alt (Semigroup.mk String.append)
      (fun _ => Either.right 1) (Either.left "e" : Either String Nat) = Either.right 1 ∧
    (Either.right 1 : Either String Nat) ≠ Either.left "e" :=
  ⟨rfl, by decide⟩

/-- Claim C5 (amended): for `getValidationSemigroup(SE,SA).concat`: two `Left`s
combine their payloads via `SE`, a `Left` with a `Right` keeps the `Left` (in
either order), two `Right`s combine via `SA`. For `getValidation(S).ap`: two
`Left`s combine via `S`, a `Left` with a `Right` keeps the `Left`, two `Right`s
apply the wrapped function. For `getValidation(S).alt`: two `Left`s combine via
`S` in call order, but a `Left` followed by a `Right` yields the `Right`, and a
`Right` first is returned unchanged without consulting the alternative. -/
theorem validation_combining_amended {ε α β : Type} (SE : Semigroup ε) (SA : Semigroup α)
    (xl yl : ε) (xr yr : α) (f : α → β) (that : Unit → Either ε α) :
    getValidationSemigroup_concat SE SA (Either.left xl) (Either.left yl) =
      Either.left (SE.concat xl yl) ∧
    getValidationSemigroup_concat SE SA (Either.left xl) (Either.right yr) =
      Either.left xl ∧
    getValidationSemigroup_concat SE SA (Either.right xr) (Either.left yl) =
      Either.left yl ∧
    getValidationSemigroup_concat SE SA (Either.right xr) (Either.right yr) =
      Either.right (SA.concat xr yr) ∧
    getValidation_ap SE (Either.left yl : Either ε α)
      (Either.left xl : Either ε (α → β)) = Either.left (SE.concat xl yl) ∧
    getValidation_ap SE (Either.left yl) (Either.right f) =
      (Either.left yl : Either ε β) ∧
    getValidation_ap SE (Either.right xr : Either ε α) (Either.left xl) =
      (Either.left xl : Either ε β) ∧
    getValidation_ap SE (Either.right xr) (Either.right f) =
      (Either.right (f xr) : Either ε β) ∧
    getValidation_alt SE (fun _ => Either.left yl) (Either.left xl) =
      (Either.left (SE.concat xl yl) : Either ε α) ∧
    getValidation_alt SE (fun _ => Either.right yr) (Either.left xl) =
      Either.right yr ∧
    getValidation_alt SE that (Either.right xr) = Either.right xr :=
  ⟨rfl, rfl, rfl, rfl, rfl, rfl, rfl, rfl, rfl, rfl, rfl⟩

/-- A runtime Either object of the JavaScript heap: the Either value together
with the object's reference identity (`===` compares `ref`).  Operations that
return their argument object unchanged keep its `ref`; operations that build a
fresh object via `left`/`right` receive the fresh reference to use. -/
structure JSEither (ε α : Type) : Type where
  ref : Nat
  val : Either ε α
deriving Repr, DecidableEq

/-- `map` from `src/es6/Either.js` (line 389) at the object level:
`isLeft(fa) ? fa : right(f(fa.right))` — the `Left` branch returns the argument
object itself (same reference), the `Right` branch allocates a fresh object. -/
def mapJS {ε α β : Type} (f : α → β) (fresh : Nat) (fa : JSEither ε α) : JSEither ε β :=
  match fa.val with
  | Either.left e => JSEither.mk fa.ref (Either.left e)
  | Either.right a => JSEither.mk fresh (Either.right (f a))

/-- `chain` from `src/es6/Either.js` (line 343) at the object level:
`isLeft(ma) ? ma : f(ma.right)` — the `Left` branch returns the argument object
itself; the `Right` branch's result is whatever object `f` returns. -/
def chainJS {ε α β : Type} (f : α → JSEither ε β) (ma : JSEither ε α) : JSEither ε β :=
  match ma.val with
  | Either.left e => JSEither.mk ma.ref (Either.left e)
  | Either.right a => f a

/-- `ap` from `src/es6/Either.js` (line 325) at the object level:
`isLeft(fab) ? fab : isLeft(fa) ? fa : right(fab.right(fa.right))`. -/
def apJS {ε α β : Type} (fresh : Nat) (fa : JSEither ε α) (fab : JSEither ε (α → β)) :
    JSEither ε β :=
  match fab.val with
  | Either.left e => JSEither.mk fab.ref (Either.left e)
  | Either.right f =>
      match fa.val with
      | Either.left e => JSEither.mk fa.ref (Either.left e)
      | Either.right a => JSEither.mk fresh (Either.right (f a))

/-- Sanity: the object-level operations compute the same Either values as the
value-level ones. -/
theorem js_val_coherence {ε α β : Type} (f : α → β) (g : α → JSEither ε β)
    (fresh : Nat) (fa : JSEither ε α) (fab : JSEither ε (α → β)) :
    (mapJS f fresh fa).val = Either.map f fa.val ∧
    (chainJS g fa).val = Either.chain (fun a => (g a).val) fa.val ∧
    (apJS fresh fa fab).val = Either.ap fa.val (fab.val) := by
  refine ⟨?_, ?_, ?_⟩ <;>
    rcases fa with ⟨r, _ | _⟩ <;>
    rcases fab with ⟨r2, _ | _⟩ <;>
    rfl

/-- Claim C7: on a `Left` object `l`, `map(f)`, `chain(f)` and `ap` with `l` on
the function side each return the very same object `l` — same reference id and
unchanged payload — regardless of the function applied, the fresh reference
available, or the other argument. -/
theorem left_short_circuit_preserves_value {ε α β : Type} (r fresh : Nat) (e : ε)
    (f : α → β) (g : α → JSEither ε β) (fa : JSEither ε α) :
    mapJS f fresh (JSEither.mk r (Either.left e)) = JSEither.mk r (Either.left e) ∧
    chainJS g (JSEither.mk r (Either.left e)) = JSEither.mk r (Either.left e) ∧
    apJS fresh fa (JSEither.mk r (Either.left e) : JSEither ε (α → β)) =
      JSEither.mk r (Either.left e) :=
  ⟨rfl, rfl, rfl⟩

/-- The `equals` field of `getEq(EL, EA)` from `src/es6/Either.js` (lines 437-443):
`x === y || (isLeft(x) ? isLeft(y) && EL.equals(x.left, y.left)
                       : isRight(y) && EA.equals(x.right, y.right))`,
with `===` embedded as reference-id equality. -/
def getEq_equals {ε α : Type} (EL : ε → ε → Bool) (EA : α → α → Bool)
    (x y : JSEither ε α) : Bool :=
  x.ref == y.ref ||
    (match x.val with
     | Either.left xl =>
         match y.val with
         | Either.left yl => EL xl yl
         | Either.right _ => false
     | Either.right xr =>
         match y.val with
         | Either.left _ => false
         | Either.right yr => EA xr yr)

/-- Claim C9: `getEq(EL, EA).equals(x, x)` is `true` for every object `x` and
every pair of payload equalities `EL`, `EA` — the `===` reference shortcut
answers without consulting `EL` or `EA`, so reflexivity on an identical value
holds even for non-reflexive payload equalities. -/
theorem getEq_refl_on_identical {ε α : Type} (EL : ε → ε → Bool) (EA : α → α → Bool)
    (x : JSEither ε α) : getEq_equals EL EA x x = true := by
  simp [getEq_equals]

/-- A JavaScript runtime value, covering the shapes `fromNullable` is specified
on: `null`, `undefined`, numbers (with `NaN` kept apart), strings, booleans and
object references. -/
inductive JsValue : Type where
  | null
  | undefined
  | number (n : Int)
  | nan
  | string (s : String)
  | boolean (b : Bool)
  | object (id : Nat)
deriving Repr, DecidableEq

/-- JavaScript loose equality against null, `a == null`: true exactly on `null`
and `undefined`. -/
def eqNull : JsValue → Bool
  | JsValue.null => true
  | JsValue.undefined => true
  | _ => false

/-- `fromNullable` from `src/es6/Either.js` (lines 55-57):
`a == null ? left(e()) : right(a)`. -/
def fromNullable {ε : Type} (e : Unit → ε) (a : JsValue) : Either ε JsValue :=
  if eqNull a then Either.left (e ()) else Either.right a

/-- Claim C8: `fromNullable(e)` sends `null` and `undefined` — and only those
two — to `left(e())`, and every other value, including the falsy `0`, `""`,
`false` and `NaN`, to `right` of that value; on non-nullish input the result
does not depend on `e`, i.e. `e` is consulted only in the nullish case. -/
theorem fromNullable_spec {ε : Type} (e e' : Unit → ε) (a : JsValue) :
    fromNullable e JsValue.null = Either.left (e ()) ∧
    fromNullable e JsValue.undefined = Either.left (e ()) ∧
    (a ≠ JsValue.null → a ≠ JsValue.undefined → fromNullable e a = Either.right a) ∧
    (a ≠ JsValue.null → a ≠ JsValue.undefined → fromNullable e a = fromNullable e' a) ∧
    fromNullable e (JsValue.number 0) = Either.right (JsValue.number 0) ∧
    fromNullable e (JsValue.string "") = Either.right (JsValue.string "") ∧
    fromNullable e (JsValue.boolean false) = Either.right (JsValue.boolean false) ∧
    fromNullable e JsValue.nan = Either.right JsValue.nan := by
  have hother : ∀ b : JsValue, b ≠ JsValue.null → b ≠ JsValue.undefined →
      eqNull b = false := by
    intro b h1 h2
    cases b <;> simp_all [eqNull]
  refine ⟨rfl, rfl, ?_, ?_, rfl, rfl, rfl, rfl⟩
  · intro h1 h2
    simp [fromNullable, hother a h1 h2]
  · intro h1 h2
    simp [fromNullable, hother a h1 h2]

/-- Witness for C8 at concrete inputs: the falsy number `0` is not nullish and
is sent to `right(0)`. -/
theorem fromNullable_spec_witness :
    fromNullable (fun _ => "nully") (JsValue.number 0) =
      Either.right (JsValue.number 0) :=
  (fromNullable_spec (fun _ => "nully") (fun _ => "other") (JsValue.number 0)).2.2.1
    (by decide) (by decide)

/-- The `separate` field of `getCompactable(M)` from `src/es6/Either.js`
(lines 596-602), with `empty = left(M.empty)`:
`isLeft(ma) ? { left: ma, right: ma }
            : isLeft(ma.right) ? { left: right(ma.right.left), right: empty }
                               : { left: empty, right: right(ma.right.right) }`. -/
def getCompactable_separate {ε β γ : Type} (M : Monoid ε)
    (ma : Either ε (Either β γ)) : Either ε β × Either ε γ :=
  match ma with
  | Either.left e => (Either.left e, Either.left e)
  | Either.right (Either.left b) => (Either.right b, Either.left M.empty)
  | Either.right (Either.right c) => (Either.left M.empty, Either.right c)

/-- The `partition` field of `getFilterable(M)` from `src/es6/Either.js`
(lines 625-631), with `empty = left(M.empty)`:
`isLeft(ma) ? { left: ma, right: ma }
            : p(ma.right) ? { left: empty, right: right(ma.right) }
                          : { left: right(ma.right), right: empty }`. -/
def getFilterable_partition {ε α : Type} (M : Monoid ε) (p : α → Bool)
    (ma : Either ε α) : Either ε α × Either ε α :=
  match ma with
  | Either.left e => (Either.left e, Either.left e)
  | Either.right a =>
      if p a then (Either.left M.empty, Either.right a)
      else (Either.right a, Either.left M.empty)

/-- Claim C10: on a `Left` input, `getCompactable(M).separate` and
`getFilterable(M).partition(p)` each return the pair whose two components are
that same `Left` unchanged, for every Monoid `M` (and predicate `p`). -/
theorem left_propagates_into_separated_pair {ε α β γ : Type} (M : Monoid ε) (e : ε)
    (p : α → Bool) :
    getCompactable_separate M (Either.left e : Either ε (Either β γ)) =
      (Either.left e, Either.left e) ∧
    getFilterable_partition M p (Either.left e : Either ε α) =
      (Either.left e, Either.left e) :=
  ⟨rfl, rfl⟩

/-- Modelled from the spec: `IO.js` is not under `src/`.  §4.3 of the spec —
`IO<A>` is "invoke with no arguments, get one `A`", a deferred side-effecting
thunk.  The side effect is embedded by explicit world-state passing: invoking
an `Io σ α` on the current world yields the successor world and the value. -/
def Io (σ α : Type) : Type :=
  σ → σ × α

/-- Modelled from the spec (§4.3): `of(a)` returns an IO that always yields `a`,
performing no effect. -/
def Io.of {σ α : Type} (a : α) : Io σ α :=
  fun s => (s, a)

/-- Modelled from the spec (§4.3): `map(f)` composes `f` after invocation. -/
def Io.map {σ α β : Type} (f : α → β) (ma : Io σ α) : Io σ β :=
  fun s => ((ma s).1, f (ma s).2)

/-- Modelled from the spec (§4.3): `chain(f)` invokes, feeds the result into
`f`, and invokes the resulting IO. -/
def Io.chain {σ α β : Type} (f : α → Io σ β) (ma : Io σ α) : Io σ β :=
  fun s => f (ma s).2 (ma s).1

/-- `IOEither<E, A> = IO<Either<E, A>>` (src/es6/IOEither.js, spec §2). -/
def IOEither (σ ε α : Type) : Type :=
  Io σ (Either ε α)

/-- Modelled from the spec (§4.4): `EitherT.left(M)(e) = M.of(Left(e))`,
instantiated at the IO base — `IOEither.js` line 26. -/
def IOEither.left {σ ε α : Type} (e : ε) : IOEither σ ε α :=
  Io.of (Either.left e)

/-- Modelled from the spec (§4.4): `EitherT.right(M)(a) = M.of(Right(a))`,
instantiated at the IO base; `of = right` — `IOEither.js` lines 32, 227. -/
def IOEither.of {σ ε α : Type} (a : α) : IOEither σ ε α :=
  Io.of (Either.right a)

/-- Modelled from the spec (§4.4): `EitherT.chain(M)(f)(ma) =
M.chain(ma, e => isLeft(e) ? M.of(e) : f(e.right))`, instantiated at the IO
base — `IOEither.js` line 235. -/
def IOEither.chain {σ ε α β : Type} (f : α → IOEither σ ε β) (ma : IOEither σ ε α) :
    IOEither σ ε β :=
  Io.chain
    (fun e =>
      match e with
      | Either.left l => Io.of (Either.left l)
      | Either.right a => f a)
    ma

/-- `bracket` from `src/es6/IOEither.js` (lines 118-124):
`pipe(acquire, chain(a => pipe(pipe(use(a), io.monadIO.map(E.right)),
  chain(e => pipe(release(a, e),
    chain(() => E.isLeft(e) ? left(e.left) : of(e.right)))))))`. -/
def bracket {σ ε α β : Type} (acquire : IOEither σ ε α) (use : α → IOEither σ ε β)
    (release : α → Either ε β → IOEither σ ε Unit) : IOEither σ ε β :=
  IOEither.chain
    (fun a =>
      IOEither.chain
        (fun e =>
          IOEither.chain
            (fun _ =>
              match e with
              | Either.left l => IOEither.left l
              | Either.right b => IOEither.of b)
            (release a e))
        (Io.map Either.right (use a)))
    acquire

/-- Claim C1: `bracket(acquire, use, release)` — if `acquire` yields a `Left`,
the overall run stops in the world state `acquire` left behind with that `Left`
as result, for every `use` and `release` (neither is invoked); if `acquire`
yields `Right a`, then `use a` runs, `release a` is invoked on `use`'s outcome
(whether `Left` or `Right`) in the world `use` left behind, and the overall
result, in the world `release` left behind, is `use`'s outcome when `release`
yields a `Right` and `release`'s own `Left` when `release` fails. -/
theorem bracket_protocol {σ ε α β : Type} (acquire : IOEither σ ε α)
    (use : α → IOEither σ ε β) (release : α → Either ε β → IOEither σ ε Unit)
    (s : σ) :
    (∀ s1 e, acquire s = (s1, Either.left e) →
      bracket acquire use release s = (s1, Either.left e)) ∧
    (∀ s1 a, acquire s = (s1, Either.right a) →
      bracket acquire use release s =
        ((release a (use a s1).2 (use a s1).1).1,
          match (release a (use a s1).2 (use a s1).1).2 with
          | Either.left l => Either.left l
          | Either.right _ => (use a s1).2)) := by
  constructor
  · intro s1 e h
    simp [bracket, IOEither.chain, Io.chain, Io.of, h]
  · intro s1 a h
    simp only [bracket, IOEither.chain, Io.chain, Io.map, Io.of, h]
    rcases hu : use a s1 with ⟨s2, eb⟩
    rcases hr : release a eb s2 with ⟨s3, ec⟩
    cases ec <;> cases eb <;> simp [Io.of, IOEither.left, IOEither.of, hu, hr]

/-- Witness for C1 at a concrete run with a world trace: acquisition succeeds,
`use` fails with `left "ue"`, `release` succeeds; the trace `[1, 2, 3]` records
that all three steps ran, and the overall result is `use`'s failure. -/
theorem bracket_protocol_witness :
    @bracket (List Nat) String Nat Nat
      (fun s => (s ++ [1], Either.right 5))
      (fun _ s => (s ++ [2], Either.left "ue"))
      (fun _ _ s => (s ++ [3], Either.right ())) [] =
      ([1, 2, 3], Either.left "ue") := by
  have h := (@bracket_protocol (List Nat) String Nat Nat
      (fun s => (s ++ [1], Either.right 5))
      (fun _ s => (s ++ [2], Either.left "ue"))
      (fun _ _ s => (s ++ [3], Either.right ())) []).2 [1] 5 rfl
  simpa using h

/-- `tryCatch` from `src/es6/Either.js` (lines 155-162): invoke the thunk `f`
inside `try`; wrap a normal return `v` as `right(v)`; wrap a thrown `t` as
`left(onError(t))`.  A possibly-throwing thunk is embedded as returning
`Except θ α`: `Except.ok v` is a normal return, `Except.error t` a throw. -/
def Either.tryCatch {θ ε α : Type} (f : Unit → Except θ α) (onError : θ → ε) :
    Either ε α :=
  match f () with
  | Except.ok v => Either.right v
  | Except.error t => Either.left (onError t)

/-- `tryCatch` from `src/es6/IOEither.js` (lines 107-109):
`function () { return E.tryCatch(f, onError); }` — the deferred computation
that, when invoked, runs the side-effecting, possibly-throwing thunk `f`
(embedded as a world-state function returning `Except`) under `E.tryCatch`. -/
def IOEither.tryCatch {σ θ ε α : Type} (f : σ → σ × Except θ α) (onError : θ → ε) :
    IOEither σ ε α :=
  fun s => ((f s).1, Either.tryCatch (fun _ => (f s).2) onError)

/-- Claim C6: `Either.tryCatch(f, onError)` yields `right(v)` when invoking `f`
returns `v` normally and `left(onError(t))` when `f` throws `t`;
`IOEither.tryCatch` defers the same behaviour: invoking the returned
computation runs `f` and yields `right` of its result on normal return and
`left(onError(t))` on a throw, in the world state `f` left behind. -/
theorem tryCatch_spec {θ ε α σ : Type} (f : Unit → Except θ α) (onError : θ → ε)
    (g : σ → σ × Except θ α) (s : σ) :
    (∀ v, f () = Except.ok v → Either.tryCatch f onError = Either.right v) ∧
    (∀ t, f () = Except.error t → Either.tryCatch f onError = Either.left (onError t)) ∧
    (∀ s1 v, g s = (s1, Except.ok v) →
      IOEither.tryCatch g onError s = (s1, Either.right v)) ∧
    (∀ s1 t, g s = (s1, Except.error t) →
      IOEither.tryCatch g onError s = (s1, Either.left (onError t))) := by
  refine ⟨?_, ?_, ?_, ?_⟩
  · intro v h
    simp [Either.tryCatch, h]
  · intro t h
    simp [Either.tryCatch, h]
  · intro s1 v h
    simp [IOEither.tryCatch, Either.tryCatch, h]
  · intro s1 t h
    simp [IOEither.tryCatch, Either.tryCatch, h]

/-- Witness for C6 at concrete inputs: a normally returning thunk yields
`right 42`; a throwing thunk yields `left` of the handled thrown value; the
deferred IOEither variants behave the same when invoked. -/
theorem tryCatch_spec_witness :
    Either.tryCatch (fun _ => Except.ok 42) (fun t : String => t) = Either.right 42 ∧
    Either.tryCatch (fun _ => (Except.error "x" : Except String Nat)) (fun t => t) =
      Either.left "x" ∧
    IOEither.tryCatch (fun s : Nat => (s + 1, Except.ok 42)) (fun t : String => t) 0 =
      (1, Either.right 42) ∧
    IOEither.tryCatch (fun s : Nat => (s + 1, (Except.error "x" : Except String Nat)))
      (fun t => t) 0 = (1, Either.left "x") := by
  refine ⟨?_, ?_, ?_, ?_⟩
  · exact (tryCatch_spec (fun _ => Except.ok 42) (fun t : String => t)
      (fun s : Nat => (s, Except.ok 42)) 0).1 42 rfl
  · exact (tryCatch_spec (fun _ => (Except.error "x" : Except String Nat)) (fun t => t)
      (fun s : Nat => (s, Except.error "x")) 0).2.1 "x" rfl
  · exact (tryCatch_spec (fun _ => (Except.ok 42 : Except String Nat)) (fun t => t)
      (fun s : Nat => (s + 1, Except.ok 42)) 0).2.2.1 1 42 rfl
  · exact (tryCatch_spec (fun _ => (Except.ok 0 : Except String Nat)) (fun t => t)
      (fun s : Nat => (s + 1, Except.error "x")) 0).2.2.2 1 "x" rfl

end FpTs
